import Mathlib

/-!
# Water-Quality-Analyzer: shallow embedding and verification

Embedding of the analysis pipeline in `src/app/api/analyze/route.ts`:
`analyzeImage` (two-pass color statistics + eight metric derivations),
`determineWaterQuality`, `scoreInRange`, `assessWaterSafety` and
`generateRecommendations`.

Modelling conventions:
* JavaScript numbers are modelled as exact extended rationals (`JSNum`):
  a rational, `+Infinity`, `-Infinity`, or `NaN`, with IEEE-754 special-value
  semantics for the arithmetic and comparison operators (division by zero
  produces a signed infinity or NaN, any comparison involving NaN is false,
  `Math.min`/`Math.max` propagate NaN).  Floating-point rounding is idealised
  away: sums, products and quotients of representable values are taken exact.
* Pixel data (`Buffer` of unsigned bytes) is a `List ℕ`; the `i += 4` scan
  loops become structural recursion consuming four entries at a time.
  The first-pass accumulators only ever hold finite non-negative values
  (sums of bytes), so they are carried directly as rationals; the only place
  a special value can arise from finite inputs is the unguarded division
  `avgR / avgG` in `calculatePH`, which is computed in `JSNum`.
* `Math.sqrt` (used once, for the pooled variance) is an abstract parameter
  `sqrt : ℚ → ℚ` threaded through `computeAverages`/`analyzeImage`; theorems
  that depend on its value state the needed property (e.g. `sqrt 0 = 0`) as a
  hypothesis, and all other theorems hold for every choice of `sqrt`.
-/

/-- JavaScript number values relevant to this program: an exact rational,
the two infinities, or NaN. -/
inductive JSNum where
  | num (q : ℚ)
  | pinf
  | ninf
  | nan
  deriving DecidableEq, Repr

namespace JSNum

/-- IEEE negation. -/
def neg : JSNum → JSNum
  | num q => num (-q)
  | pinf => ninf
  | ninf => pinf
  | nan => nan

/-- IEEE addition (exact on finite values). -/
def add : JSNum → JSNum → JSNum
  | nan, _ => nan
  | _, nan => nan
  | num a, num b => num (a + b)
  | num _, pinf => pinf
  | num _, ninf => ninf
  | pinf, num _ => pinf
  | ninf, num _ => ninf
  | pinf, pinf => pinf
  | ninf, ninf => ninf
  | pinf, ninf => nan
  | ninf, pinf => nan

/-- IEEE subtraction. -/
def sub (a b : JSNum) : JSNum := add a (neg b)

/-- IEEE multiplication (exact on finite values); `0 × ∞ = NaN`. -/
def mul : JSNum → JSNum → JSNum
  | nan, _ => nan
  | _, nan => nan
  | num a, num b => num (a * b)
  | num a, pinf => if 0 < a then pinf else if a < 0 then ninf else nan
  | num a, ninf => if 0 < a then ninf else if a < 0 then pinf else nan
  | pinf, num b => if 0 < b then pinf else if b < 0 then ninf else nan
  | ninf, num b => if 0 < b then ninf else if b < 0 then pinf else nan
  | pinf, pinf => pinf
  | pinf, ninf => ninf
  | ninf, pinf => ninf
  | ninf, ninf => pinf

/-- IEEE division (exact on finite values): a nonzero finite value divided by
zero is a signed infinity, `0 / 0 = NaN`, `∞ / ∞ = NaN`. -/
def div : JSNum → JSNum → JSNum
  | nan, _ => nan
  | _, nan => nan
  | num a, num b =>
      if b = 0 then (if 0 < a then pinf else if a < 0 then ninf else nan)
      else num (a / b)
  | num _, pinf => num 0
  | num _, ninf => num 0
  | pinf, num b => if 0 ≤ b then pinf else ninf
  | ninf, num b => if 0 ≤ b then ninf else pinf
  | pinf, pinf => nan
  | pinf, ninf => nan
  | ninf, pinf => nan
  | ninf, ninf => nan

/-- `Math.abs`. -/
def abs : JSNum → JSNum
  | num q => num |q|
  | pinf => pinf
  | ninf => pinf
  | nan => nan

/-- The JavaScript comparison `a <= b` (false when either side is NaN). -/
def leb : JSNum → JSNum → Bool
  | nan, _ => false
  | _, nan => false
  | num a, num b => a ≤ b
  | num _, pinf => true
  | num _, ninf => false
  | pinf, num _ => false
  | ninf, num _ => true
  | pinf, pinf => true
  | ninf, ninf => true
  | ninf, pinf => true
  | pinf, ninf => false

/-- The JavaScript comparison `a < b` (false when either side is NaN). -/
def ltb : JSNum → JSNum → Bool
  | nan, _ => false
  | _, nan => false
  | num a, num b => a < b
  | num _, pinf => true
  | num _, ninf => false
  | pinf, num _ => false
  | ninf, num _ => true
  | pinf, pinf => false
  | ninf, ninf => false
  | ninf, pinf => true
  | pinf, ninf => false

/-- `Math.min` (NaN-propagating). -/
def jmin : JSNum → JSNum → JSNum
  | nan, _ => nan
  | _, nan => nan
  | num a, num b => num (Min.min a b)
  | num a, pinf => num a
  | pinf, num b => num b
  | ninf, _ => ninf
  | _, ninf => ninf
  | pinf, pinf => pinf

/-- `Math.max` (NaN-propagating). -/
def jmax : JSNum → JSNum → JSNum
  | nan, _ => nan
  | _, nan => nan
  | num a, num b => num (Max.max a b)
  | num a, ninf => num a
  | ninf, num b => num b
  | pinf, _ => pinf
  | _, pinf => pinf
  | ninf, ninf => ninf

@[simp] theorem add_num (a b : ℚ) : add (num a) (num b) = num (a + b) := rfl
@[simp] theorem sub_num (a b : ℚ) : sub (num a) (num b) = num (a - b) := by
  show num (a + -b) = num (a - b); rw [← sub_eq_add_neg]
@[simp] theorem mul_num (a b : ℚ) : mul (num a) (num b) = num (a * b) := rfl
@[simp] theorem abs_num (a : ℚ) : abs (num a) = num |a| := rfl
@[simp] theorem leb_num (a b : ℚ) : leb (num a) (num b) = decide (a ≤ b) := rfl
@[simp] theorem ltb_num (a b : ℚ) : ltb (num a) (num b) = decide (a < b) := rfl
@[simp] theorem jmin_num (a b : ℚ) : jmin (num a) (num b) = num (Min.min a b) := rfl
@[simp] theorem jmax_num (a b : ℚ) : jmax (num a) (num b) = num (Max.max a b) := rfl

theorem div_num_of_ne (a b : ℚ) (hb : b ≠ 0) : div (num a) (num b) = num (a / b) := by
  simp [div, hb]

/-- `x` is a finite value lying in the closed interval `[lo, hi]`. -/
def inRange (x : JSNum) (lo hi : ℚ) : Prop := ∃ q : ℚ, x = num q ∧ lo ≤ q ∧ q ≤ hi

end JSNum

open JSNum

/-- The `ColorAverages` record of the source.  All six statistics computed
from a pixel buffer are finite, so the fields are plain rationals. -/
structure ColorAverages where
  red : ℚ
  green : ℚ
  blue : ℚ
  brightness : ℚ
  saturation : ℚ
  variance : ℚ
  deriving DecidableEq, Repr

/-- The `WaterQualityMetrics` record of the source.  Fields are JavaScript
numbers; with the unguarded `avgR/avgG` division, `ph` can be NaN. -/
structure WaterQualityMetrics where
  ph : JSNum
  turbidity : JSNum
  dissolvedOxygen : JSNum
  temperature : JSNum
  conductivity : JSNum
  totalDissolvedSolids : JSNum
  chlorine : JSNum
  hardness : JSNum
  deriving DecidableEq, Repr

/-- The `safetyStatus` record returned by `assessWaterSafety`. -/
structure SafetyStatus where
  isDrinkable : Bool
  isSwimmable : Bool
  isIrrigationSafe : Bool
  deriving DecidableEq, Repr

/-- The `AnalysisResult` record assembled by the route handler. -/
structure AnalysisResult where
  overallQuality : String
  metrics : WaterQualityMetrics
  recommendations : List String
  safetyStatus : SafetyStatus
  deriving DecidableEq, Repr

/-- First-pass accumulators (`colorTotals` before the variance pass). -/
structure ColorTotals where
  red : ℚ
  green : ℚ
  blue : ℚ
  brightness : ℚ
  saturation : ℚ
  deriving DecidableEq, Repr

/-- First pass of `analyzeImage`: the `for (let i = 0; i < pixelData.length;
i += 4)` loop.  For each pixel it accumulates the channel sums, the
brightness `(r+g+b)/3`, and the saturation ratio
`max > 0 ? (max - min) / max : 0`. -/
def pass1 : List ℕ → ColorTotals
  | r :: g :: b :: _ :: rest =>
      let t := pass1 rest
      let mx : ℕ := Nat.max r (Nat.max g b)
      let mn : ℕ := Nat.min r (Nat.min g b)
      { red := t.red + r
        green := t.green + g
        blue := t.blue + b
        brightness := t.brightness + ((r : ℚ) + g + b) / 3
        saturation := t.saturation + (if 0 < mx then ((mx : ℚ) - mn) / mx else 0) }
  | _ => ⟨0, 0, 0, 0, 0⟩

/-- Second pass of `analyzeImage`: accumulates
`(r - avgR)^2 + (g - avgG)^2 + (b - avgB)^2` over all pixels. -/
def pass2 (aR aG aB : ℚ) : List ℕ → ℚ
  | r :: g :: b :: _ :: rest =>
      pass2 aR aG aB rest + (((r : ℚ) - aR) ^ 2 + ((g : ℚ) - aG) ^ 2 + ((b : ℚ) - aB) ^ 2)
  | _ => 0

/-- The statistics part of `analyzeImage`: totals divided by
`totalPixels = width * height`, then the pooled variance
`Math.sqrt(varianceSum / (totalPixels * 3))`. -/
def computeAverages (sqrt : ℚ → ℚ) (pixelData : List ℕ) (width height : ℕ) :
    ColorAverages :=
  let totalPixels : ℚ := ((width * height : ℕ) : ℚ)
  let t := pass1 pixelData
  let red := t.red / totalPixels
  let green := t.green / totalPixels
  let blue := t.blue / totalPixels
  let brightness := t.brightness / totalPixels
  let saturation := t.saturation / totalPixels
  let varianceSum := pass2 red green blue pixelData
  { red := red, green := green, blue := blue, brightness := brightness,
    saturation := saturation, variance := sqrt (varianceSum / (totalPixels * 3)) }

/-- `calculatePH`: `clamp(7 + (avgR/avgG - 1) * 3.5 + (avgB/255 - 0.5), 0, 14)`.
The division `avgR / avgG` is NOT guarded, so it is computed with JavaScript
semantics: `avgG = 0` yields `+Infinity` (when `avgR > 0`) or NaN (when
`avgR = 0`), and NaN passes through `Math.min`/`Math.max` unclamped. -/
def calculatePH (averages : ColorAverages) : JSNum :=
  let rgRat := JSNum.div (num averages.red) (num averages.green)
  let bModifier : ℚ := averages.blue / 255
  let baseValue := JSNum.add (num 7) (JSNum.mul (JSNum.sub rgRat (num 1)) (num (7/2)))
  jmax (num 0) (jmin (num 14) (JSNum.add baseValue (num (bModifier - 1/2))))

/-- `calculateTurbidity`: `clamp((255 - brightness)/6.375 + variance/30, 0, 40)`.
All inputs are finite, so the computation stays in ℚ (6.375 = 51/8). -/
def calculateTurbidity (averages : ColorAverages) : JSNum :=
  num (Max.max 0 (Min.min 40 ((255 - averages.brightness) / (51/8) + averages.variance / 30)))

/-- `calculateDissolvedOxygen`: `clamp((blue/255)*10 + saturation*5, 0, 15)`. -/
def calculateDissolvedOxygen (averages : ColorAverages) : JSNum :=
  num (Max.max 0 (Min.min 15 (averages.blue / 255 * 10 + averages.saturation * 5)))

/-- `calculateTemperature`: `clamp((red/255)*40, 0, 40)`. -/
def calculateTemperature (averages : ColorAverages) : JSNum :=
  num (Max.max 0 (Min.min 40 (averages.red / 255 * 40)))

/-- `calculateConductivity`: `clamp(variance*5 + (brightness/255)*1000, 0, 2000)`. -/
def calculateConductivity (averages : ColorAverages) : JSNum :=
  num (Max.max 0 (Min.min 2000 (averages.variance * 5 + averages.brightness / 255 * 1000)))

/-- `calculateTDS`: `clamp((brightness/255)*500 + variance*2, 0, 1000)`. -/
def calculateTDS (averages : ColorAverages) : JSNum :=
  num (Max.max 0 (Min.min 1000 (averages.brightness / 255 * 500 + averages.variance * 2)))

/-- `calculateChlorine`: `clamp(((green - blue)/255)*4, 0, 4)`. -/
def calculateChlorine (averages : ColorAverages) : JSNum :=
  num (Max.max 0 (Min.min 4 ((averages.green - averages.blue) / 255 * 4)))

/-- `calculateHardness`: `clamp(((red + green)/(2*255))*300, 0, 300)`. -/
def calculateHardness (averages : ColorAverages) : JSNum :=
  num (Max.max 0 (Min.min 300 ((averages.red + averages.green) / (2 * 255) * 300)))

/-- `analyzeImage`: two-pass statistics followed by the eight metric
derivations. -/
def analyzeImage (sqrt : ℚ → ℚ) (pixelData : List ℕ) (width height : ℕ) :
    WaterQualityMetrics :=
  let averages := computeAverages sqrt pixelData width height
  { ph := calculatePH averages
    turbidity := calculateTurbidity averages
    dissolvedOxygen := calculateDissolvedOxygen averages
    temperature := calculateTemperature averages
    conductivity := calculateConductivity averages
    totalDissolvedSolids := calculateTDS averages
    chlorine := calculateChlorine averages
    hardness := calculateHardness averages }

/-- `scoreInRange`: 1 inside `[mn, mx]`, otherwise
`max(0, 1 - |value - midpoint| / (mx - mn))`.  The metric value is a
JavaScript number; both comparisons are false on NaN, and a NaN value makes
the deviation branch return NaN. -/
def scoreInRange (value mn mx : JSNum) : JSNum :=
  if leb mn value && leb value mx then num 1
  else
    let midpoint := JSNum.div (JSNum.add mn mx) (num 2)
    let deviat := JSNum.div (JSNum.abs (JSNum.sub value midpoint)) (JSNum.sub mx mn)
    jmax (num 0) (JSNum.sub (num 1) deviat)

/-- `determineWaterQuality`: scores ph, turbidity, dissolvedOxygen, TDS,
chlorine and hardness, averages the six scores, and maps the average through
the `>= 0.9 / >= 0.7 / >= 0.5` threshold chain. -/
def determineWaterQuality (metrics : WaterQualityMetrics) : String :=
  let sPh := scoreInRange metrics.ph (num (13/2)) (num (17/2))
  let sTurb := scoreInRange metrics.turbidity (num 0) (num 5)
  let sDO := scoreInRange metrics.dissolvedOxygen (num 6) (num 8)
  let sTds := scoreInRange metrics.totalDissolvedSolids (num 0) (num 500)
  let sChl := scoreInRange metrics.chlorine (num (1/5)) (num 2)
  let sHard := scoreInRange metrics.hardness (num 60) (num 180)
  let total := JSNum.add (JSNum.add (JSNum.add (JSNum.add (JSNum.add sPh sTurb) sDO) sTds) sChl) sHard
  let averageScore := JSNum.div total (num 6)
  if leb (num (9/10)) averageScore then "Excellent"
  else if leb (num (7/10)) averageScore then "Good"
  else if leb (num (1/2)) averageScore then "Fair"
  else "Poor"

/-- `assessWaterSafety`: the three boolean conjunctions of the source,
with JavaScript comparison semantics (`x >= c` is `leb (num c) x`). -/
def assessWaterSafety (metrics : WaterQualityMetrics) : SafetyStatus :=
  let isDrinkable :=
    leb (num (13/2)) metrics.ph && leb metrics.ph (num (17/2)) &&
    leb metrics.turbidity (num 1) &&
    leb (num 6) metrics.dissolvedOxygen &&
    leb metrics.totalDissolvedSolids (num 500) &&
    leb (num (1/5)) metrics.chlorine && leb metrics.chlorine (num 4)
  let isSwimmable :=
    leb (num 6) metrics.ph && leb metrics.ph (num 9) &&
    leb metrics.turbidity (num 5) &&
    leb (num 4) metrics.dissolvedOxygen
  let isIrrigationSafe :=
    leb (num 6) metrics.ph && leb metrics.ph (num (17/2)) &&
    leb metrics.totalDissolvedSolids (num 2000)
  { isDrinkable := isDrinkable, isSwimmable := isSwimmable,
    isIrrigationSafe := isIrrigationSafe }

/-- `Number.prototype.toFixed(1)`: round to the nearest tenth, ties away
from the smaller value (ECMA-262 picks the larger candidate), and render
with exactly one digit after the point.  On the special values it renders
their JavaScript names. -/
def toFixed1 : JSNum → String
  | num q =>
      let n : ℤ := Int.floor (q * 10 + 1/2)
      let sign := if n < 0 then "-" else ""
      let a := n.natAbs
      sign ++ toString (a / 10) ++ "." ++ toString (a % 10)
  | pinf => "Infinity"
  | ninf => "-Infinity"
  | nan => "NaN"

/-- The pH recommendation message, embedding `metrics.ph.toFixed(1)`. -/
def phMessage (ph : JSNum) : String :=
  "pH level (" ++ toFixed1 ph ++ ") is outside safe drinking range. Consider pH adjustment."

/-- The turbidity recommendation message. -/
def turbidityMessage : String :=
  "Water turbidity is high. Filtration recommended before consumption."

/-- The low-chlorine recommendation message. -/
def chlorineMessage : String :=
  "Chlorine levels are low. Consider additional disinfection."

/-- The hardness recommendation message. -/
def hardnessMessage : String :=
  "Water is very hard. Consider using a water softener."

/-- The high-TDS recommendation message. -/
def tdsMessage : String :=
  "High TDS levels detected. Consider reverse osmosis treatment."

/-- The fallback message pushed when no other recommendation fired. -/
def okMessage : String :=
  "Water quality is within acceptable ranges. Regular monitoring recommended."

/-- `generateRecommendations`: sequential pushes onto a list — the three
drinkability-gated messages (pH out of `[6.5, 8.5]`, turbidity `> 1`,
chlorine `< 0.2`), then hardness `> 180`, then TDS `> 500`; if nothing was
pushed, the single fallback message. -/
def generateRecommendations (metrics : WaterQualityMetrics) (safety : SafetyStatus) :
    List String :=
  let drinkableRecs :=
    if !safety.isDrinkable then
      (if ltb metrics.ph (num (13/2)) || ltb (num (17/2)) metrics.ph then
        [phMessage metrics.ph] else []) ++
      (if ltb (num 1) metrics.turbidity then [turbidityMessage] else []) ++
      (if ltb metrics.chlorine (num (1/5)) then [chlorineMessage] else [])
    else []
  let recommendations :=
    drinkableRecs ++
    (if ltb (num 180) metrics.hardness then [hardnessMessage] else []) ++
    (if ltb (num 500) metrics.totalDissolvedSolids then [tdsMessage] else [])
  if recommendations = [] then [okMessage] else recommendations

/-- The pure tail of the `POST` handler: `analyzeImage`, then
`determineWaterQuality`, `assessWaterSafety` and `generateRecommendations`,
assembled into an `AnalysisResult`. -/
def analyzePipeline (sqrt : ℚ → ℚ) (pixelData : List ℕ) (width height : ℕ) :
    AnalysisResult :=
  let metrics := analyzeImage sqrt pixelData width height
  let overallQuality := determineWaterQuality metrics
  let safetyStatus := assessWaterSafety metrics
  let recommendations := generateRecommendations metrics safetyStatus
  { overallQuality := overallQuality, metrics := metrics,
    recommendations := recommendations, safetyStatus := safetyStatus }

/-! ## Spec-side definitions

The following definitions are written from the specification's words, to be
compared with the definitions translated from the source. -/

/-- The (r, g, b) triples of a pixel buffer, reading four samples per pixel
and discarding the alpha channel. -/
def chunkPixels : List ℕ → List (ℕ × ℕ × ℕ)
  | r :: g :: b :: _ :: rest => (r, g, b) :: chunkPixels rest
  | _ => []

/-- Per-pixel brightness `(r + g + b) / 3` (spec §4.2). -/
def pixelBrightness (p : ℕ × ℕ × ℕ) : ℚ := ((p.1 : ℚ) + p.2.1 + p.2.2) / 3

/-- Per-pixel saturation `(max(r,g,b) - min(r,g,b)) / max(r,g,b)`, with the
ratio taken as 0 when the max is 0 (spec §4.2). -/
def pixelSaturation (p : ℕ × ℕ × ℕ) : ℚ :=
  let mx : ℕ := Nat.max p.1 (Nat.max p.2.1 p.2.2)
  let mn : ℕ := Nat.min p.1 (Nat.min p.2.1 p.2.2)
  if 0 < mx then ((mx : ℚ) - mn) / mx else 0

/-- Spec-side color statistics (spec §4.2): pass-1 channel, brightness and
saturation sums each divided by `width * height`, then the pooled deviation
sum of pass 2 and `variance = sqrt(sum / (totalPixels * 3))`. -/
def specAverages (sqrt : ℚ → ℚ) (pixelData : List ℕ) (width height : ℕ) :
    ColorAverages :=
  let ps := chunkPixels pixelData
  let n : ℚ := ((width * height : ℕ) : ℚ)
  let red := (ps.map fun p => (p.1 : ℚ)).sum / n
  let green := (ps.map fun p => (p.2.1 : ℚ)).sum / n
  let blue := (ps.map fun p => (p.2.2 : ℚ)).sum / n
  let brightness := (ps.map pixelBrightness).sum / n
  let saturation := (ps.map pixelSaturation).sum / n
  let devSum := (ps.map fun p =>
    ((p.1 : ℚ) - red) ^ 2 + ((p.2.1 : ℚ) - green) ^ 2 + ((p.2.2 : ℚ) - blue) ^ 2).sum
  { red := red, green := green, blue := blue, brightness := brightness,
    saturation := saturation, variance := sqrt (devSum / (n * 3)) }

/-- Spec-side per-metric score (spec §4.4): 1 inside the target range,
otherwise `max(0, 1 - |value - midpoint| / (max - min))` with
`midpoint = (min + max)/2`. -/
def specScore (value : JSNum) (mn mx : ℚ) : JSNum :=
  if leb (num mn) value && leb value (num mx) then num 1
  else jmax (num 0)
    (JSNum.sub (num 1)
      (JSNum.div (JSNum.abs (JSNum.sub value (num ((mn + mx) / 2)))) (num (mx - mn))))

/-- Spec-side quality classifier (spec §4.4): equal-weight average of the six
scores, mapped through the inclusive thresholds 0.9 / 0.7 / 0.5. -/
def specQuality (metrics : WaterQualityMetrics) : String :=
  let total :=
    JSNum.add (JSNum.add (JSNum.add (JSNum.add
      (JSNum.add (specScore metrics.ph (13/2) (17/2)) (specScore metrics.turbidity 0 5))
      (specScore metrics.dissolvedOxygen 6 8)) (specScore metrics.totalDissolvedSolids 0 500))
      (specScore metrics.chlorine (1/5) 2)) (specScore metrics.hardness 60 180)
  let averageScore := JSNum.div total (num 6)
  if leb (num (9/10)) averageScore then "Excellent"
  else if leb (num (7/10)) averageScore then "Good"
  else if leb (num (1/2)) averageScore then "Fair"
  else "Poor"

/-- Spec-side recommendation generator (spec §4.6): the five fired messages
in fixed order, or the single fallback message when none fired. -/
def specRecommendations (metrics : WaterQualityMetrics) (safety : SafetyStatus) :
    List String :=
  let fired :=
    (if !safety.isDrinkable &&
        (ltb metrics.ph (num (13/2)) || ltb (num (17/2)) metrics.ph) then
      [phMessage metrics.ph] else []) ++
    (if !safety.isDrinkable && ltb (num 1) metrics.turbidity then
      [turbidityMessage] else []) ++
    (if !safety.isDrinkable && ltb metrics.chlorine (num (1/5)) then
      [chlorineMessage] else []) ++
    (if ltb (num 180) metrics.hardness then [hardnessMessage] else []) ++
    (if ltb (num 500) metrics.totalDissolvedSolids then [tdsMessage] else [])
  if fired = [] then [okMessage] else fired

/-- A buffer of `n` identical RGBA pixels. -/
def uniformBuffer (n r g b a : ℕ) : List ℕ := (List.replicate n [r, g, b, a]).flatten

/-! ## Helper lemmas -/

theorem pass1_eq (d : List ℕ) :
    pass1 d =
      { red := ((chunkPixels d).map fun p => (p.1 : ℚ)).sum
        green := ((chunkPixels d).map fun p => (p.2.1 : ℚ)).sum
        blue := ((chunkPixels d).map fun p => (p.2.2 : ℚ)).sum
        brightness := ((chunkPixels d).map pixelBrightness).sum
        saturation := ((chunkPixels d).map pixelSaturation).sum } := by
  induction d using pass1.induct with
  | case1 r g b a rest ih =>
      simp [pass1, chunkPixels, ih, pixelBrightness, pixelSaturation]
      refine ⟨?_, ?_, ?_, ?_, ?_⟩ <;> ring
  | case2 d h => cases d with
      | nil => rfl
      | cons x xs => cases xs with
        | nil => rfl
        | cons y ys => cases ys with
          | nil => rfl
          | cons z zs => cases zs with
            | nil => rfl
            | cons w ws => exact absurd rfl (h x y z w ws)

theorem pass2_eq (aR aG aB : ℚ) (d : List ℕ) :
    pass2 aR aG aB d =
      ((chunkPixels d).map fun p =>
        ((p.1 : ℚ) - aR) ^ 2 + ((p.2.1 : ℚ) - aG) ^ 2 + ((p.2.2 : ℚ) - aB) ^ 2).sum := by
  induction d using pass2.induct aR aG aB with
  | case1 r g b a rest ih =>
      simp [pass2, chunkPixels, ih]; ring
  | case2 d h => cases d with
      | nil => rfl
      | cons x xs => cases xs with
        | nil => rfl
        | cons y ys => cases ys with
          | nil => rfl
          | cons z zs => cases zs with
            | nil => rfl
            | cons w ws => exact absurd rfl (h x y z w ws)

theorem inRange_clamp (cap x : ℚ) (hcap : 0 ≤ cap) :
    JSNum.inRange (num (Max.max 0 (Min.min cap x))) 0 cap :=
  ⟨Max.max 0 (Min.min cap x), rfl, le_max_left _ _, max_le hcap (min_le_left _ _)⟩

theorem pass1_red_nonneg (d : List ℕ) : 0 ≤ (pass1 d).red := by
  rw [pass1_eq]
  refine List.sum_nonneg ?_
  intro x hx
  simp only [List.mem_map] at hx
  obtain ⟨p, -, rfl⟩ := hx
  positivity

theorem pass1_green_nonneg (d : List ℕ) : 0 ≤ (pass1 d).green := by
  rw [pass1_eq]
  refine List.sum_nonneg ?_
  intro x hx
  simp only [List.mem_map] at hx
  obtain ⟨p, -, rfl⟩ := hx
  positivity

theorem uniformBuffer_succ (n r g b a : ℕ) :
    uniformBuffer (n + 1) r g b a = r :: g :: b :: a :: uniformBuffer n r g b a := by
  simp [uniformBuffer, List.replicate_succ]

theorem pass1_uniform (n r g b a : ℕ) :
    pass1 (uniformBuffer n r g b a) =
      { red := (n : ℚ) * r, green := (n : ℚ) * g, blue := (n : ℚ) * b,
        brightness := (n : ℚ) * (((r : ℚ) + g + b) / 3),
        saturation := (n : ℚ) * pixelSaturation (r, g, b) } := by
  induction n with
  | zero => simp [uniformBuffer, pass1]
  | succ n ih =>
      rw [uniformBuffer_succ]
      simp only [pass1, ih, pixelSaturation]
      simp only [ColorTotals.mk.injEq]
      refine ⟨?_, ?_, ?_, ?_, ?_⟩ <;> push_cast <;> ring

theorem pass2_uniform (aR aG aB : ℚ) (n r g b a : ℕ) :
    pass2 aR aG aB (uniformBuffer n r g b a) =
      (n : ℚ) * (((r : ℚ) - aR) ^ 2 + ((g : ℚ) - aG) ^ 2 + ((b : ℚ) - aB) ^ 2) := by
  induction n with
  | zero => simp [uniformBuffer, pass2]
  | succ n ih =>
      rw [uniformBuffer_succ]
      simp only [pass2, ih]
      push_cast
      ring

theorem computeAverages_uniform (sqrt : ℚ → ℚ) (r g b a w h : ℕ)
    (hw : 0 < w) (hh : 0 < h) :
    computeAverages sqrt (uniformBuffer (w * h) r g b a) w h =
      { red := r, green := g, blue := b, brightness := ((r : ℚ) + g + b) / 3,
        saturation := pixelSaturation (r, g, b), variance := sqrt 0 } := by
  have hn : ((w * h : ℕ) : ℚ) ≠ 0 := by
    exact_mod_cast Nat.pos_iff_ne_zero.mp (Nat.mul_pos hw hh)
  simp only [computeAverages, pass1_uniform, pass2_uniform]
  rw [mul_div_cancel_left₀ _ hn, mul_div_cancel_left₀ _ hn, mul_div_cancel_left₀ _ hn,
    mul_div_cancel_left₀ _ hn, mul_div_cancel_left₀ _ hn]
  norm_num

theorem calculatePH_num (A : ColorAverages) (hg : A.green ≠ 0) :
    calculatePH A =
      num (Max.max 0 (Min.min 14 (7 + (A.red / A.green - 1) * (7/2) + (A.blue / 255 - 1/2)))) := by
  rw [calculatePH, div_num_of_ne _ _ hg]
  simp

theorem calculatePH_green_zero_red_pos (A : ColorAverages) (hg : A.green = 0)
    (hr : 0 < A.red) : calculatePH A = num 14 := by
  rw [calculatePH, hg]
  have hdiv : JSNum.div (num A.red) (num 0) = pinf := by
    simp [JSNum.div, hr, not_lt_of_lt hr]
  rw [hdiv]
  show jmax (num 0) (jmin (num 14) (JSNum.add (JSNum.add (num 7) (JSNum.mul (JSNum.sub pinf (num 1)) (num (7/2)))) _)) = num 14
  have hsub : JSNum.sub pinf (num 1) = pinf := rfl
  rw [hsub]
  have hmul : JSNum.mul pinf (num (7/2)) = pinf := by
    show (if (0:ℚ) < 7/2 then pinf else if (7:ℚ)/2 < 0 then ninf else nan) = pinf
    norm_num
  rw [hmul]
  show jmax (num 0) (jmin (num 14) pinf) = num 14
  show num (Max.max 0 14) = num 14
  norm_num

theorem leb_le_left {a b : ℚ} (x : JSNum) (hba : b ≤ a) (h : leb (num a) x = true) :
    leb (num b) x = true := by
  cases x <;> simp_all [leb]
  exact le_trans hba h

theorem leb_le_right {a b : ℚ} (x : JSNum) (hab : a ≤ b) (h : leb x (num a) = true) :
    leb x (num b) = true := by
  cases x <;> simp_all [leb]
  exact le_trans h hab

theorem specScore_eq (v : JSNum) (mn mx : ℚ) :
    specScore v mn mx = scoreInRange v (num mn) (num mx) := by
  rw [specScore, scoreInRange]
  have hmid : JSNum.div (num (mn + mx)) (num 2) = num ((mn + mx) / 2) :=
    div_num_of_ne _ _ (by norm_num)
  simp [hmid]

theorem phMessage_ne_okMessage (x : JSNum) : phMessage x ≠ okMessage := by
  intro hEq
  have hd := congrArg String.data hEq
  rw [phMessage, okMessage, String.data_append, String.data_append] at hd
  have hp : "pH level (".data = 'p' :: "H level (".data := by decide
  rw [hp] at hd
  have hw : ("Water quality is within acceptable ranges. " ++
      "Regular monitoring recommended.").data.head? = some 'W' := by decide
  have hhead := congrArg List.head? hd
  simp only [List.cons_append, List.head?_cons] at hhead
  have : some 'p' =
      "Water quality is within acceptable ranges. Regular monitoring recommended.".data.head? :=
    hhead
  rw [show "Water quality is within acceptable ranges. Regular monitoring recommended.".data.head? =
      some 'W' from by decide] at this
  exact absurd this (by decide)

theorem mem_ok_iff (L : List String) (hok : okMessage ∉ L) :
    okMessage ∈ (if L = [] then [okMessage] else L) ↔
      (if L = [] then [okMessage] else L) = [okMessage] := by
  by_cases hL : L = []
  · simp [hL]
  · rw [if_neg hL]
    constructor
    · intro hm
      exact absurd hm hok
    · intro he
      rw [he] at hok
      simp at hok

theorem okMessage_not_mem_recs (m : WaterQualityMetrics) (s : SafetyStatus) :
    okMessage ∉
      (if !s.isDrinkable then
        (if ltb m.ph (num (13/2)) || ltb (num (17/2)) m.ph then [phMessage m.ph] else []) ++
        (if ltb (num 1) m.turbidity then [turbidityMessage] else []) ++
        (if ltb m.chlorine (num (1/5)) then [chlorineMessage] else [])
      else []) ++
      (if ltb (num 180) m.hardness then [hardnessMessage] else []) ++
      (if ltb (num 500) m.totalDissolvedSolids then [tdsMessage] else []) := by
  intro hmem
  simp only [List.mem_append] at hmem
  rcases hmem with ((h | h) | h)
  · split at h
    · simp only [List.mem_append] at h
      rcases h with ((h | h) | h) <;> split at h <;>
        first
          | exact absurd h (List.not_mem_nil _)
          | exact absurd (List.mem_singleton.mp h).symm (phMessage_ne_okMessage _)
          | exact absurd (List.mem_singleton.mp h) (by decide)
    · exact absurd h (List.not_mem_nil _)
  · split at h
    · exact absurd (List.mem_singleton.mp h) (by decide)
    · exact absurd h (List.not_mem_nil _)
  · split at h
    · exact absurd (List.mem_singleton.mp h) (by decide)
    · exact absurd h (List.not_mem_nil _)

/-! ## Claims -/

/-- Claim C1, counterexample: on the all-black 1×1 buffer the unguarded
`avgR / avgG` division is `0 / 0 = NaN`, which passes through the clamp, so
the resulting `ph` is NaN and does not lie in `[0, 14]`. -/
theorem c1_counterexample :
    ¬ JSNum.inRange ((analyzeImage (fun _ => 0) [0, 0, 0, 0] 1 1).ph) 0 14 := by
  have hbuf : uniformBuffer (1 * 1) 0 0 0 0 = [0, 0, 0, 0] := rfl
  have hA : computeAverages (fun _ => 0) [0, 0, 0, 0] 1 1 =
      { red := 0, green := 0, blue := 0, brightness := 0, saturation := 0,
        variance := 0 } := by
    rw [← hbuf, computeAverages_uniform (fun _ => 0) 0 0 0 0 1 1 one_pos one_pos]
    simp [pixelSaturation]
  have hph : (analyzeImage (fun _ => 0) [0, 0, 0, 0] 1 1).ph =
      calculatePH (computeAverages (fun _ => 0) [0, 0, 0, 0] 1 1) := rfl
  intro hc
  obtain ⟨q, hq, -, -⟩ := hc
  rw [hph, hA] at hq
  rw [show calculatePH
      { red := 0, green := 0, blue := 0, brightness := 0, saturation := 0,
        variance := 0 } = JSNum.nan from by
    rw [calculatePH]
    simp [JSNum.div, JSNum.sub, JSNum.neg, JSNum.add, JSNum.mul, JSNum.jmin,
      JSNum.jmax]] at hq
  exact JSNum.noConfusion hq

/-- Claim C1 (amended): for every pixel buffer with `length = width*height*4`
and `width, height > 0`, every field of the metrics returned by
`analyzeImage` lies in its declared range — except that `ph ∈ [0, 14]` only
holds when the red or the green channel sum is nonzero (when both are zero,
`ph` is NaN); the other seven fields are always in range. -/
theorem c1_metrics_inRange (sqrt : ℚ → ℚ) (d : List ℕ) (w h : ℕ)
    (hw : 0 < w) (hh : 0 < h) (_hlen : d.length = w * h * 4) :
    (((pass1 d).red ≠ 0 ∨ (pass1 d).green ≠ 0) →
      JSNum.inRange (analyzeImage sqrt d w h).ph 0 14) ∧
    JSNum.inRange (analyzeImage sqrt d w h).turbidity 0 40 ∧
    JSNum.inRange (analyzeImage sqrt d w h).dissolvedOxygen 0 15 ∧
    JSNum.inRange (analyzeImage sqrt d w h).temperature 0 40 ∧
    JSNum.inRange (analyzeImage sqrt d w h).conductivity 0 2000 ∧
    JSNum.inRange (analyzeImage sqrt d w h).totalDissolvedSolids 0 1000 ∧
    JSNum.inRange (analyzeImage sqrt d w h).chlorine 0 4 ∧
    JSNum.inRange (analyzeImage sqrt d w h).hardness 0 300 := by
  have hn : (0 : ℚ) < ((w * h : ℕ) : ℚ) := by exact_mod_cast Nat.mul_pos hw hh
  have hph : (analyzeImage sqrt d w h).ph = calculatePH (computeAverages sqrt d w h) := rfl
  have hAg : (computeAverages sqrt d w h).green = (pass1 d).green / ((w * h : ℕ) : ℚ) := rfl
  have hAr : (computeAverages sqrt d w h).red = (pass1 d).red / ((w * h : ℕ) : ℚ) := rfl
  refine ⟨?_, ?_, ?_, ?_, ?_, ?_, ?_, ?_⟩
  · intro hrg
    by_cases hg : (pass1 d).green = 0
    · have hr : (pass1 d).red ≠ 0 := hrg.resolve_right (by simp [hg])
      have hrpos : 0 < (computeAverages sqrt d w h).red := by
        rw [hAr]
        exact div_pos (lt_of_le_of_ne (pass1_red_nonneg d) (Ne.symm hr)) hn
      have hgz : (computeAverages sqrt d w h).green = 0 := by rw [hAg, hg, zero_div]
      rw [hph, calculatePH_green_zero_red_pos _ hgz hrpos]
      exact ⟨14, rfl, by norm_num, le_refl 14⟩
    · have hAgne : (computeAverages sqrt d w h).green ≠ 0 := by
        rw [hAg]
        exact div_ne_zero hg (ne_of_gt hn)
      rw [hph, calculatePH_num _ hAgne]
      exact inRange_clamp 14 _ (by norm_num)
  all_goals exact inRange_clamp _ _ (by norm_num)

theorem c1_metrics_inRange_witness :
    (0 < 1 ∧ 0 < 1 ∧ ([255, 255, 255, 255] : List ℕ).length = 1 * 1 * 4) ∧
    ((((pass1 [255, 255, 255, 255]).red ≠ 0 ∨ (pass1 [255, 255, 255, 255]).green ≠ 0) →
      JSNum.inRange (analyzeImage (fun _ => 0) [255, 255, 255, 255] 1 1).ph 0 14) ∧
    JSNum.inRange (analyzeImage (fun _ => 0) [255, 255, 255, 255] 1 1).turbidity 0 40 ∧
    JSNum.inRange (analyzeImage (fun _ => 0) [255, 255, 255, 255] 1 1).dissolvedOxygen 0 15 ∧
    JSNum.inRange (analyzeImage (fun _ => 0) [255, 255, 255, 255] 1 1).temperature 0 40 ∧
    JSNum.inRange (analyzeImage (fun _ => 0) [255, 255, 255, 255] 1 1).conductivity 0 2000 ∧
    JSNum.inRange (analyzeImage (fun _ => 0) [255, 255, 255, 255] 1 1).totalDissolvedSolids 0 1000 ∧
    JSNum.inRange (analyzeImage (fun _ => 0) [255, 255, 255, 255] 1 1).chlorine 0 4 ∧
    JSNum.inRange (analyzeImage (fun _ => 0) [255, 255, 255, 255] 1 1).hardness 0 300) :=
  ⟨⟨by decide, by decide, by decide⟩,
    c1_metrics_inRange (fun _ => 0) [255, 255, 255, 255] 1 1 (by decide) (by decide)
      (by decide)⟩

/-- Claim C2: the pH division is NOT guarded — at the `ColorAverages` input
with `green = 0` and `red = 0` (all channels zero), `calculatePH` evaluates
`0 / 0 = NaN` and returns NaN, not a finite value.  (With `green = 0` but
`red > 0` the ratio is `+Infinity` and the clamp yields 14.) -/
theorem c2_calculatePH_unguarded :
    calculatePH
      { red := 0, green := 0, blue := 0, brightness := 0, saturation := 0,
        variance := 0 } = JSNum.nan := by
  rw [calculatePH]
  simp [JSNum.div, JSNum.sub, JSNum.neg, JSNum.add, JSNum.mul, JSNum.jmin, JSNum.jmax]

/-- Claim C3: the color statistics computed by the source's two accumulation
loops (with the totals divided by `width * height` and the pooled
`sqrt(sum / (totalPixels * 3))` deviation) coincide with the spec's two-pass
per-pixel definition, for every pixel buffer. -/
theorem c3_averages_eq_spec (sqrt : ℚ → ℚ) (d : List ℕ) (w h : ℕ) :
    computeAverages sqrt d w h = specAverages sqrt d w h := by
  simp only [computeAverages, specAverages, pass1_eq, pass2_eq]

/-- Claim C4: `determineWaterQuality` scores exactly the six metrics against
the spec's target ranges with the spec's score formula (`specQuality`), its
result is always one of the four labels, and it ignores the temperature and
conductivity fields. -/
theorem c4_quality_spec (m : WaterQualityMetrics) (t c : JSNum) :
    determineWaterQuality m = specQuality m ∧
    (determineWaterQuality m = "Excellent" ∨ determineWaterQuality m = "Good" ∨
      determineWaterQuality m = "Fair" ∨ determineWaterQuality m = "Poor") ∧
    determineWaterQuality { m with temperature := t, conductivity := c } =
      determineWaterQuality m := by
  refine ⟨?_, ?_, rfl⟩
  · simp only [determineWaterQuality, specQuality, specScore_eq]
  · simp only [determineWaterQuality]
    split
    · exact Or.inl rfl
    · split
      · exact Or.inr (Or.inl rfl)
      · split
        · exact Or.inr (Or.inr (Or.inl rfl))
        · exact Or.inr (Or.inr (Or.inr rfl))

/-- Claim C5: for every `WaterQualityMetrics` value (arbitrary JavaScript
numbers, non-finite ones included), `assessWaterSafety` returns exactly the
three conjunctions of JavaScript range comparisons stated by the spec, each
computed from the metrics alone; and on finite metric values those
conjunctions are precisely the spec's range checks read as propositions
about the rational metric values. -/
theorem c5_safety_spec (m : WaterQualityMetrics)
    (ph turb dox temp cond tds chl hard : ℚ) :
    (assessWaterSafety m =
      { isDrinkable := leb (num (13/2)) m.ph && leb m.ph (num (17/2)) && 
          leb m.turbidity (num 1) && 
          leb (num 6) m.dissolvedOxygen && 
          leb m.totalDissolvedSolids (num 500) && 
          leb (num (1/5)) m.chlorine && leb m.chlorine (num 4)
        isSwimmable := leb (num 6) m.ph && leb m.ph (num 9) && 
          leb m.turbidity (num 5) && 
          leb (num 4) m.dissolvedOxygen
        isIrrigationSafe := leb (num 6) m.ph && leb m.ph (num (17/2)) && 
          leb m.totalDissolvedSolids (num 2000) }) ∧
    (assessWaterSafety
      { ph := num ph, turbidity := num turb, dissolvedOxygen := num dox,
        temperature := num temp, conductivity := num cond,
        totalDissolvedSolids := num tds, chlorine := num chl,
        hardness := num hard } =
      { isDrinkable := decide ((13/2 ≤ ph ∧ ph ≤ 17/2) ∧ turb ≤ 1 ∧ 6 ≤ dox ∧
          tds ≤ 500 ∧ (1/5 ≤ chl ∧ chl ≤ 4))
        isSwimmable := decide ((6 ≤ ph ∧ ph ≤ 9) ∧ turb ≤ 5 ∧ 4 ≤ dox)
        isIrrigationSafe := decide ((6 ≤ ph ∧ ph ≤ 17/2) ∧ tds ≤ 2000) }) := by
  constructor
  · rfl
  · simp [assessWaterSafety, SafetyStatus.mk.injEq, Bool.decide_and, Bool.and_assoc]

/-- Claim C6: `generateRecommendations` emits exactly the spec's messages in
the spec's fixed order (`specRecommendations`), and the fallback
"acceptable ranges" message is a member of the output iff the output is
exactly that single message (i.e. iff no condition fired). -/
theorem c6_recommendations_spec (m : WaterQualityMetrics) (s : SafetyStatus) :
    generateRecommendations m s = specRecommendations m s ∧
    (okMessage ∈ generateRecommendations m s ↔
      generateRecommendations m s = [okMessage]) := by
  constructor
  · rcases s with ⟨dr, sw, ir⟩
    cases dr <;> simp [generateRecommendations, specRecommendations, List.append_assoc]
  · have hok := okMessage_not_mem_recs m s
    simp only [generateRecommendations]
    exact mem_ok_iff _ hok

/-- Claim C7: on a uniform pure-white buffer `analyzeImage` computes average
brightness 255, average saturation 0, variance 0, turbidity 0 and
temperature 40; on a uniform pure-black buffer it computes brightness 0,
saturation 0 (the zero-max guard applies), variance 0, turbidity 40,
dissolvedOxygen 0 and hardness 0. -/
theorem c7_uniform_images (sqrt : ℚ → ℚ) (w h a : ℕ)
    (hw : 0 < w) (hh : 0 < h) (hs : sqrt 0 = 0) :
    ((computeAverages sqrt (uniformBuffer (w * h) 255 255 255 a) w h).brightness = 255 ∧
     (computeAverages sqrt (uniformBuffer (w * h) 255 255 255 a) w h).saturation = 0 ∧
     (computeAverages sqrt (uniformBuffer (w * h) 255 255 255 a) w h).variance = 0 ∧
     (analyzeImage sqrt (uniformBuffer (w * h) 255 255 255 a) w h).turbidity = num 0 ∧
     (analyzeImage sqrt (uniformBuffer (w * h) 255 255 255 a) w h).temperature = num 40) ∧
    ((computeAverages sqrt (uniformBuffer (w * h) 0 0 0 a) w h).brightness = 0 ∧
     (computeAverages sqrt (uniformBuffer (w * h) 0 0 0 a) w h).saturation = 0 ∧
     (computeAverages sqrt (uniformBuffer (w * h) 0 0 0 a) w h).variance = 0 ∧
     (analyzeImage sqrt (uniformBuffer (w * h) 0 0 0 a) w h).turbidity = num 40 ∧
     (analyzeImage sqrt (uniformBuffer (w * h) 0 0 0 a) w h).dissolvedOxygen = num 0 ∧
     (analyzeImage sqrt (uniformBuffer (w * h) 0 0 0 a) w h).hardness = num 0) := by
  have hwAvg : computeAverages sqrt (uniformBuffer (w * h) 255 255 255 a) w h =
      { red := 255, green := 255, blue := 255, brightness := 255,
        saturation := 0, variance := 0 } := by
    rw [computeAverages_uniform sqrt 255 255 255 a w h hw hh, hs]
    simp [pixelSaturation]
    norm_num
  have hbAvg : computeAverages sqrt (uniformBuffer (w * h) 0 0 0 a) w h =
      { red := 0, green := 0, blue := 0, brightness := 0,
        saturation := 0, variance := 0 } := by
    rw [computeAverages_uniform sqrt 0 0 0 a w h hw hh, hs]
    simp [pixelSaturation]
  have htw : (analyzeImage sqrt (uniformBuffer (w * h) 255 255 255 a) w h).turbidity =
      calculateTurbidity (computeAverages sqrt (uniformBuffer (w * h) 255 255 255 a) w h) := rfl
  have hte : (analyzeImage sqrt (uniformBuffer (w * h) 255 255 255 a) w h).temperature =
      calculateTemperature (computeAverages sqrt (uniformBuffer (w * h) 255 255 255 a) w h) := rfl
  have htb : (analyzeImage sqrt (uniformBuffer (w * h) 0 0 0 a) w h).turbidity =
      calculateTurbidity (computeAverages sqrt (uniformBuffer (w * h) 0 0 0 a) w h) := rfl
  have hdo : (analyzeImage sqrt (uniformBuffer (w * h) 0 0 0 a) w h).dissolvedOxygen =
      calculateDissolvedOxygen (computeAverages sqrt (uniformBuffer (w * h) 0 0 0 a) w h) := rfl
  have hha : (analyzeImage sqrt (uniformBuffer (w * h) 0 0 0 a) w h).hardness =
      calculateHardness (computeAverages sqrt (uniformBuffer (w * h) 0 0 0 a) w h) := rfl
  refine ⟨⟨?_, ?_, ?_, ?_, ?_⟩, ?_, ?_, ?_, ?_, ?_, ?_⟩
  · rw [hwAvg]
  · rw [hwAvg]
  · rw [hwAvg]
  · rw [htw, hwAvg, calculateTurbidity]
    norm_num
  · rw [hte, hwAvg, calculateTemperature]
    norm_num
  · rw [hbAvg]
  · rw [hbAvg]
  · rw [hbAvg]
  · rw [htb, hbAvg, calculateTurbidity]
    norm_num
  · rw [hdo, hbAvg, calculateDissolvedOxygen]
    norm_num
  · rw [hha, hbAvg, calculateHardness]
    norm_num

theorem c7_uniform_images_witness :
    (0 < 1 ∧ 0 < 1 ∧ (fun (_ : ℚ) => (0 : ℚ)) 0 = 0) ∧
    (((computeAverages (fun _ => 0) (uniformBuffer (1 * 1) 255 255 255 255) 1 1).brightness = 255 ∧
      (computeAverages (fun _ => 0) (uniformBuffer (1 * 1) 255 255 255 255) 1 1).saturation = 0 ∧
      (computeAverages (fun _ => 0) (uniformBuffer (1 * 1) 255 255 255 255) 1 1).variance = 0 ∧
      (analyzeImage (fun _ => 0) (uniformBuffer (1 * 1) 255 255 255 255) 1 1).turbidity = num 0 ∧
      (analyzeImage (fun _ => 0) (uniformBuffer (1 * 1) 255 255 255 255) 1 1).temperature = num 40) ∧
     ((computeAverages (fun _ => 0) (uniformBuffer (1 * 1) 0 0 0 255) 1 1).brightness = 0 ∧
      (computeAverages (fun _ => 0) (uniformBuffer (1 * 1) 0 0 0 255) 1 1).saturation = 0 ∧
      (computeAverages (fun _ => 0) (uniformBuffer (1 * 1) 0 0 0 255) 1 1).variance = 0 ∧
      (analyzeImage (fun _ => 0) (uniformBuffer (1 * 1) 0 0 0 255) 1 1).turbidity = num 40 ∧
      (analyzeImage (fun _ => 0) (uniformBuffer (1 * 1) 0 0 0 255) 1 1).dissolvedOxygen = num 0 ∧
      (analyzeImage (fun _ => 0) (uniformBuffer (1 * 1) 0 0 0 255) 1 1).hardness = num 0)) :=
  ⟨⟨Nat.one_pos, Nat.one_pos, rfl⟩,
    c7_uniform_images (fun _ => 0) 1 1 255 Nat.one_pos Nat.one_pos rfl⟩

/-- Claim C8: the analysis pipeline is deterministic — it is a pure function
of the pixel buffer, width and height, so equal inputs give equal
`AnalysisResult`s (no randomness, no state between invocations). -/
theorem c8_pipeline_deterministic (sqrt : ℚ → ℚ) (d1 d2 : List ℕ)
    (w1 w2 h1 h2 : ℕ) (hd : d1 = d2) (hw : w1 = w2) (hh : h1 = h2) :
    analyzePipeline sqrt d1 w1 h1 = analyzePipeline sqrt d2 w2 h2 := by
  rw [hd, hw, hh]

theorem c8_pipeline_deterministic_witness :
    (([0, 0, 0, 0] : List ℕ) = [0, 0, 0, 0] ∧ (1 : ℕ) = 1 ∧ (1 : ℕ) = 1) ∧
    analyzePipeline (fun _ => 0) [0, 0, 0, 0] 1 1 =
      analyzePipeline (fun _ => 0) [0, 0, 0, 0] 1 1 :=
  ⟨⟨rfl, rfl, rfl⟩,
    c8_pipeline_deterministic (fun _ => 0) [0, 0, 0, 0] [0, 0, 0, 0] 1 1 1 1 rfl rfl rfl⟩

/-- Claim C9 (implicit): any metrics judged drinkable are also judged
swimmable and irrigation-safe, because the drinkable bounds entail the other
two conjunctions. -/
theorem c9_drinkable_implies (m : WaterQualityMetrics)
    (h : (assessWaterSafety m).isDrinkable = true) :
    (assessWaterSafety m).isSwimmable = true ∧
    (assessWaterSafety m).isIrrigationSafe = true := by
  simp only [assessWaterSafety, Bool.and_eq_true] at h ⊢
  obtain ⟨⟨⟨⟨⟨⟨h1, h2⟩, h3⟩, h4⟩, h5⟩, h6⟩, h7⟩ := h
  refine ⟨⟨⟨⟨?_, ?_⟩, ?_⟩, ?_⟩, ⟨⟨?_, ?_⟩, ?_⟩⟩
  · exact leb_le_left m.ph (by norm_num) h1
  · exact leb_le_right m.ph (by norm_num) h2
  · exact leb_le_right m.turbidity (by norm_num) h3
  · exact leb_le_left m.dissolvedOxygen (by norm_num) h4
  · exact leb_le_left m.ph (by norm_num) h1
  · exact h2
  · exact leb_le_right m.totalDissolvedSolids (by norm_num) h5

theorem c9_drinkable_implies_witness :
    (assessWaterSafety
      { ph := num 7, turbidity := num 0, dissolvedOxygen := num 7,
        temperature := num 20, conductivity := num 100,
        totalDissolvedSolids := num 100, chlorine := num 1,
        hardness := num 100 }).isDrinkable = true ∧
    ((assessWaterSafety
      { ph := num 7, turbidity := num 0, dissolvedOxygen := num 7,
        temperature := num 20, conductivity := num 100,
        totalDissolvedSolids := num 100, chlorine := num 1,
        hardness := num 100 }).isSwimmable = true ∧
     (assessWaterSafety
      { ph := num 7, turbidity := num 0, dissolvedOxygen := num 7,
        temperature := num 20, conductivity := num 100,
        totalDissolvedSolids := num 100, chlorine := num 1,
        hardness := num 100 }).isIrrigationSafe = true) :=
  ⟨by simp [assessWaterSafety]; norm_num,
    c9_drinkable_implies _ (by simp [assessWaterSafety]; norm_num)⟩

/-- Claim C10 (implicit): for metrics produced by `analyzeImage`, the TDS
value is clamped to at most 1000, so the `totalDissolvedSolids <= 2000`
conjunct of `isIrrigationSafe` always holds and the flag reduces to the pH
check alone. -/
theorem c10_irrigation_eq_ph (sqrt : ℚ → ℚ) (d : List ℕ) (w h : ℕ) :
    (assessWaterSafety (analyzeImage sqrt d w h)).isIrrigationSafe =
      (leb (num 6) (analyzeImage sqrt d w h).ph &&
       leb (analyzeImage sqrt d w h).ph (num (17/2))) := by
  have htds : leb (analyzeImage sqrt d w h).totalDissolvedSolids (num 2000) = true := by
    show leb (num (Max.max 0 (Min.min 1000
      ((computeAverages sqrt d w h).brightness / 255 * 500 +
        (computeAverages sqrt d w h).variance * 2)))) (num 2000) = true
    rw [leb_num, decide_eq_true_eq]
    exact max_le (by norm_num) (le_trans (min_le_left _ _) (by norm_num))
  show (leb (num 6) (analyzeImage sqrt d w h).ph &&
    leb (analyzeImage sqrt d w h).ph (num (17/2)) &&
    leb (analyzeImage sqrt d w h).totalDissolvedSolids (num 2000)) = _
  rw [htds, Bool.and_true]
